import Mathlib

/-!
Shallow embedding of the VF_BETA job-lifecycle engine:
the requeue classifier (`src/unnamed/part_001`), the image-generation
worker with its parameter injector, completion poller and result
extractor (`src/workers/imageGenerationWorker.ts`).

Times are milliseconds modelled as `Int` (JS `Date.now()` arithmetic).
JS objects are modelled as association lists; JS truthiness of strings
(empty string is falsy) and of numbers (zero is falsy) is modelled
explicitly where the source relies on it.
-/

namespace VF

/-- JS `a || b` for an optional string where the empty string is falsy. -/
def jsOrStr (o : Option String) (d : String) : String :=
  match o with
  | some s => if s = "" then d else s
  | none => d

/-- Prefix test `pat.isPrefixOf hay` on character lists, recursive and executable. -/
def isPre : List Char → List Char → Bool
  | [], _ => true
  | _ :: _, [] => false
  | p :: ps, h :: hs => p = h && isPre ps hs

/-- Substring containment on character lists: does `hay` contain `pat`? -/
def containsSub (pat : List Char) : List Char → Bool
  | [] => pat.isEmpty
  | c :: rest => isPre pat (c :: rest) || containsSub pat rest

/-- JS `hay.toLowerCase().includes(pat.toLowerCase())`. -/
def lcIncludes (hay pat : String) : Bool :=
  containsSub pat.toLower.data hay.toLower.data

/-! Section: Requeue classifier data model (`src/unnamed/part_001`) -/

/-- Metadata block `requeue_info` attached to a resubmitted job's data. -/
structure RequeueInfo where
  original_job_id : String
  requeue_count : Nat
  requeue_timestamp : String
  original_failure_reason : Option String
  deriving Repr, DecidableEq

/-- The part of BullMQ job data the classifier reads and rewrites. -/
structure JobData where
  workflow_name : String
  requeue_info : Option RequeueInfo
  deriving Repr, DecidableEq

/-- A failed job as seen by the sweep: id, creation timestamp (ms),
failure reason (`job.failedReason`, possibly absent) and its data. -/
structure FailedJob where
  id : String
  timestamp : Int
  failedReason : Option String
  data : JobData
  deriving Repr, DecidableEq

/-- Options record `RequeueOptions` after the defaults merge of line 21:
every field present. -/
structure RequeueOptions where
  maxAge : Int
  maxRetries : Nat
  priorityBoost : Bool
  delayBeforeRequeue : Int
  deriving Repr, DecidableEq

/-- Value `defaultOptions` of `src/unnamed/part_001` lines 13-18. -/
def defaultOptions : RequeueOptions :=
  { maxAge := 24 * 60 * 60 * 1000
    maxRetries := 2
    priorityBoost := true
    delayBeforeRequeue := 30000 }

/-- The fixed transient-signal substrings (lines 126-136). -/
def temporaryErrors : List String :=
  [ "timeout", "connection", "network", "ECONNREFUSED", "ENOTFOUND",
    "ETIMEDOUT", "ComfyUI API Error (5", "Timeout waiting for ComfyUI",
    "Erro ao consultar histórico" ]

/-- The fixed terminal-signal substrings (lines 139-145). -/
def permanentErrors : List String :=
  [ "Workflow não encontrado", "ComfyUI API Error (4", "bad anatomy",
    "invalid input", "malformed" ]

/-- Result record of `shouldRequeueJob`. -/
structure RequeueDecision where
  requeue : Bool
  reason : String
  deriving Repr, DecidableEq

/-- Prior count `job.data.requeue_info?.requeue_count || 0` (line 114). -/
def priorRequeueCount (j : FailedJob) : Nat :=
  match j.data.requeue_info with
  | some i => i.requeue_count
  | none => 0

/-- Classifier `shouldRequeueJob` (`src/unnamed/part_001` lines 102-191), with
`Date.now()` passed in as `now`.  The internal try/catch (lines 184-190)
is modelled by the caller via a fault flag; this is the non-throwing body. -/
def shouldRequeueJob (now : Int) (job : FailedJob) (options : RequeueOptions) :
    RequeueDecision :=
  let jobAge := now - job.timestamp
  if jobAge > options.maxAge then
    { requeue := false, reason := "Job muito antigo" }
  else
    let requeueCount := priorRequeueCount job
    if requeueCount ≥ options.maxRetries then
      { requeue := false, reason := "Máximo de re-enfileiramentos atingido" }
    else
      let failureReason := job.failedReason.getD ""
      let isTemporaryError :=
        temporaryErrors.any fun e => lcIncludes failureReason e
      if isTemporaryError then
        { requeue := true, reason := "Erro temporário detectado" }
      else
        let isPermanentError :=
          permanentErrors.any fun e => lcIncludes failureReason e
        if isPermanentError then
          { requeue := false, reason := "Erro permanente detectado" }
        else
          if requeueCount = 0 then
            { requeue := true,
              reason := "Primeira tentativa de re-enfileiramento para erro desconhecido" }
          else
            { requeue := false, reason := "Erro desconhecido já foi re-enfileirado" }

/-- Decision cascade exactly as claim C1 words it (spec §4.6), to be
compared with `shouldRequeueJob`: age, then retry budget, then temporary
match, then permanent match, then first-retry-only fallback. -/
def claimC1Decision (now : Int) (job : FailedJob) (options : RequeueOptions) :
    Bool :=
  if now - job.timestamp > options.maxAge then false
  else if priorRequeueCount job ≥ options.maxRetries then false
  else if temporaryErrors.any
      (fun e => lcIncludes (job.failedReason.getD "") e) then true
  else if permanentErrors.any
      (fun e => lcIncludes (job.failedReason.getD "") e) then false
  else priorRequeueCount job = 0

/-! Section: Resubmission and the sweep (`requeueFailedJobs`, lines 20-100) -/

/-- The data of the new job created on accept (lines 57-65):
spread of the old data plus a fresh `requeue_info` block. -/
def makeRequeueData (job : FailedJob) (nowIso : String) : JobData :=
  { job.data with
    requeue_info := some
      { original_job_id := job.id
        requeue_count := priorRequeueCount job + 1
        requeue_timestamp := nowIso
        original_failure_reason := job.failedReason } }

/-- Per-job fault oracles: `evalThrows` models an exception inside the
body of `shouldRequeueJob` (caught at lines 184-190), `ioThrows` models
an exception from `queue.add`/`job.remove` (caught at lines 79-82). -/
structure JobFaults where
  evalThrows : Bool
  ioThrows : Bool
  deriving Repr, DecidableEq

/-- Evaluation of `shouldRequeueJob` including its internal try/catch: an evaluation
error yields `{requeue: false, reason: "Erro na avaliação..."}`. -/
def evalRequeueJob (now : Int) (job : FailedJob) (options : RequeueOptions)
    (f : JobFaults) : RequeueDecision :=
  if f.evalThrows then { requeue := false, reason := "Erro na avaliação" }
  else shouldRequeueJob now job options

/-- The statistics record returned by `requeueFailedJobs` (lines 90-94). -/
structure SweepStats where
  total : Nat
  requeued : Nat
  skipped : Nat
  deriving Repr, DecidableEq

/-- The per-job loop of `requeueFailedJobs` (lines 33-83) with running
counters; an accepted job whose add/remove throws falls into the outer
catch and is counted as skipped. -/
def sweepGo (now : Int) (options : RequeueOptions) :
    List (FailedJob × JobFaults) → Nat → Nat → Nat × Nat
  | [], requeuedCount, skippedCount => (requeuedCount, skippedCount)
  | (job, f) :: rest, requeuedCount, skippedCount =>
    let d := evalRequeueJob now job options f
    if d.requeue then
      if f.ioThrows then sweepGo now options rest requeuedCount (skippedCount + 1)
      else sweepGo now options rest (requeuedCount + 1) skippedCount
    else sweepGo now options rest requeuedCount (skippedCount + 1)

/-- Sweep `requeueFailedJobs` (lines 20-100): sweep the failed set once and
return `{total, requeued, skipped}`. -/
def requeueFailedJobs (now : Int) (options : RequeueOptions)
    (failedJobs : List (FailedJob × JobFaults)) : SweepStats :=
  let rs := sweepGo now options failedJobs 0 0
  { total := failedJobs.length, requeued := rs.1, skipped := rs.2 }

/-! Section: Worker data model (`src/workers/imageGenerationWorker.ts`) -/

/-- A JSON leaf stored in a workflow node's `inputs` object. -/
inductive WValue where
  | str (s : String)
  | num (n : Int)
  deriving Repr, DecidableEq

/-- A workflow node: its `class_type` marker and its `inputs` object
(association list keyed by input name). -/
structure WNode where
  class_type : String
  inputs : List (String × WValue)
  deriving Repr, DecidableEq

/-- A workflow document: its `prompt` object keyed by node id
(`none` models an absent/falsy `prompt` field). -/
structure Workflow where
  prompt : Option (List (String × WNode))
  deriving Repr, DecidableEq

/-- JS property assignment `obj[k] = v` on an association list:
update in place if the key exists, else append it. -/
def setVal (kvs : List (String × WValue)) (k : String) (v : WValue) :
    List (String × WValue) :=
  if kvs.any (fun p => p.1 = k) then
    kvs.map (fun p => if p.1 = k then (p.1, v) else p)
  else kvs ++ [(k, v)]

/-- JS property read `obj[k]` on an association list. -/
def getVal (kvs : List (String × WValue)) (k : String) : Option WValue :=
  (kvs.find? (fun p => p.1 = k)).map Prod.snd

/-- Truthiness of `workflow.prompt && workflow.prompt[nodeId]`. -/
def hasNode (wf : Workflow) (nodeId : String) : Bool :=
  match wf.prompt with
  | some nodes => nodes.any (fun p => p.1 = nodeId)
  | none => false

/-- In-place update of one node of the `prompt` object. -/
def updateNode (wf : Workflow) (nodeId : String) (f : WNode → WNode) : Workflow :=
  { prompt := wf.prompt.map fun nodes =>
      nodes.map fun p => if p.1 = nodeId then (p.1, f p.2) else p }

/-- Assignment `workflow.prompt[nodeId].inputs.text = t`. -/
def setNodeText (wf : Workflow) (nodeId : String) (t : String) : Workflow :=
  updateNode wf nodeId fun n => { n with inputs := setVal n.inputs "text" (.str t) }

/-- The named parameters read from `job.data.inputs`; `none` models an
absent field and the JS falsiness of `""` and `0` is handled at use sites. -/
structure Inputs where
  prompt_text : Option String
  prompt : Option String
  negative_prompt : Option String
  pattern_type : Option String
  colors : Option String
  model_type : Option String
  garment_description : Option String
  seed : Option Int
  deriving Repr, DecidableEq

/-- Seed injection (lines 156-163): when `inputs.seed` is truthy and the
`prompt` object exists, overwrite `inputs.seed` of every node whose
`class_type` is `KSampler` and whose `inputs` object has a `seed` key. -/
def injectSeed (wf : Workflow) (seed : Option Int) : Workflow :=
  match seed with
  | some s =>
    if s ≠ 0 then
      match wf.prompt with
      | some nodes =>
        { prompt := some (nodes.map fun p =>
            if p.2.class_type = "KSampler" && p.2.inputs.any (fun q => q.1 = "seed")
            then (p.1, { p.2 with inputs := setVal p.2.inputs "seed" (.num s) })
            else p) }
      | none => wf
    else wf
  | none => wf

/-- The fixed set of known template names (the `switch` cases, lines 120-146). -/
def knownWorkflowNames : List String :=
  ["fashion-sketch", "pattern-generation", "model-visualization"]

/-- Injector `injectWorkflowParameters` (lines 116-171).  Returns the processed
workflow together with the warning flag (`true` exactly when the
`default` branch ran its `console.warn`, line 148).  The deep copy of
line 117 is identity on immutable values; the mutation discipline it
buys is modelled separately by `injectOnStore`. -/
def injectWorkflowParameters (workflow : Workflow) (workflowName : String)
    (inputs : Inputs) : Workflow × Bool :=
  let processedWorkflow := workflow
  let branch : Workflow × Bool :=
    if workflowName = "fashion-sketch" then
      let w1 := if hasNode processedWorkflow "6" then
          setNodeText processedWorkflow "6"
            (jsOrStr inputs.prompt_text (jsOrStr inputs.prompt "fashion sketch"))
        else processedWorkflow
      let w2 := if hasNode w1 "7" then
          setNodeText w1 "7" (jsOrStr inputs.negative_prompt "bad anatomy, low quality")
        else w1
      (w2, false)
    else if workflowName = "pattern-generation" then
      let w1 := if hasNode processedWorkflow "6" then
          setNodeText processedWorkflow "6"
            (jsOrStr inputs.pattern_type "floral" ++ " pattern, " ++
              jsOrStr inputs.colors "colorful" ++ ", seamless, high quality")
        else processedWorkflow
      (w1, false)
    else if workflowName = "model-visualization" then
      let w1 := if hasNode processedWorkflow "6" then
          setNodeText processedWorkflow "6"
            (jsOrStr inputs.model_type "female" ++ " model wearing " ++
              jsOrStr inputs.garment_description "fashionable clothing" ++
              ", professional photography")
        else processedWorkflow
      (w1, false)
    else
      (match inputs.prompt_text with
       | some t =>
         if t ≠ "" && hasNode processedWorkflow "6" then
           setNodeText processedWorkflow "6" t
         else processedWorkflow
       | none => processedWorkflow, true)
  (injectSeed branch.1 inputs.seed, branch.2)

/-! Section: Mutation discipline of the injector (claim C8)

A minimal object store: references are naturals, `next` is the
allocation counter.  `injectOnStore` renders lines 116-171 faithfully
at the heap level: line 117 allocates a fresh deep copy, every
subsequent assignment targets that copy, and the copy's reference is
returned. -/

structure Store where
  mem : Nat → Workflow
  next : Nat

/-- Allocate a fresh object holding `w`. -/
def allocStore (σ : Store) (w : Workflow) : Store × Nat :=
  ({ mem := fun i => if i = σ.next then w else σ.mem i, next := σ.next + 1 }, σ.next)

/-- Overwrite the object at reference `r`. -/
def writeStore (σ : Store) (r : Nat) (w : Workflow) : Store :=
  { mem := fun i => if i = r then w else σ.mem i, next := σ.next }

/-- Rendering of `injectWorkflowParameters` at the heap level: deep-copy the template
object at `r` into a fresh cell, apply all in-place updates to that
cell, return the new store and the copy's reference. -/
def injectOnStore (σ : Store) (r : Nat) (workflowName : String)
    (inputs : Inputs) : Store × Nat :=
  let copy := allocStore σ (σ.mem r)
  let σ2 := writeStore copy.1 copy.2
    (injectWorkflowParameters (copy.1.mem copy.2) workflowName inputs).1
  (σ2, copy.2)

/-! Section: Completion poller (`waitForComfyUICompletion`, lines 174-225) -/

/-- One image entry of a node's `images` array. -/
structure ImageEntry where
  filename : String
  subfolder : String
  type : String
  deriving Repr, DecidableEq

/-- One node's output group; `images = none` models an absent or
non-array `images` field. -/
structure NodeOutput where
  images : Option (List ImageEntry)
  deriving Repr, DecidableEq

/-- The backend's `outputs` object, keyed by producing node id. -/
abbrev Outputs := List (String × NodeOutput)

/-- What one status query observes, by the branch the source takes:
HTTP failure (line 182), entry absent (line 188 falsy), entry present
and completed (line 192), present with `status_str === 'error'`
(line 198), or present and still running. -/
inductive PollResponse where
  | httpError (status : Nat)
  | notPresent
  | running
  | errorStatus (messages : Option (List (List String)))
  | completed (outputs : Option Outputs)
  deriving Repr, DecidableEq

/-- Outcome of the poll loop: the returned outputs, or the thrown
error's message. -/
inductive PollResult where
  | success (outputs : Option Outputs)
  | failure (message : String)
  deriving Repr, DecidableEq

/-- Bound `maxAttempts = 120` (line 175). -/
def maxAttempts : Nat := 120

/-- Extraction `jobData.status.messages?.[0]?.[1] || 'Erro desconhecido no ComfyUI'`
(line 199). -/
def extractErrMsg (messages : Option (List (List String))) : String :=
  match (messages.getD []).head?.bind (fun l => l.get? 1) with
  | some s => if s = "" then "Erro desconhecido no ComfyUI" else s
  | none => "Erro desconhecido no ComfyUI"

/-- Message of the error thrown at line 200. -/
def comfyErrorMsg (messages : Option (List (List String))) : String :=
  "ComfyUI Error: " ++ extractErrMsg messages

/-- Message of the error thrown at line 183. -/
def historyErrorMsg (status : Nat) : String :=
  "Erro ao consultar histórico: " ++ toString status

/-- Message of the timeout error thrown at line 224. -/
def timeoutMsg : String :=
  "Timeout: ComfyUI não completou o processamento em " ++
    toString (maxAttempts * 5) ++ " segundos"

/-- The `while (attempts < maxAttempts)` loop of lines 178-222, with
`gas = maxAttempts - attempts` as structural fuel.  Both errors thrown
inside the `try` (query failure and explicit error status) land in the
`catch` of line 212, which increments `attempts` and rethrows only once
`attempts >= maxAttempts`; otherwise polling continues. -/
def pollGo (backend : Nat → PollResponse) : Nat → Nat → PollResult
  | _, 0 => .failure timeoutMsg
  | attempts, gas + 1 =>
    match backend attempts with
    | .httpError status =>
      if attempts + 1 ≥ maxAttempts then .failure (historyErrorMsg status)
      else pollGo backend (attempts + 1) gas
    | .errorStatus messages =>
      if attempts + 1 ≥ maxAttempts then .failure (comfyErrorMsg messages)
      else pollGo backend (attempts + 1) gas
    | .completed outs => .success outs
    | .notPresent => pollGo backend (attempts + 1) gas
    | .running => pollGo backend (attempts + 1) gas

/-- Poller `waitForComfyUICompletion` as a function of the backend's response
at each attempt index. -/
def waitForComfyUICompletion (backend : Nat → PollResponse) : PollResult :=
  pollGo backend 0 maxAttempts

/-- Interpolated progress of lines 204-205:
`Math.min(50 + (attempts / maxAttempts) * 40, 89)`. -/
def pollProgress (attempts : Nat) : ℚ :=
  min (50 + ((attempts : ℚ) / (maxAttempts : ℚ)) * 40) 89

/-- The progress values the poll loop reports (`job.updateProgress` at
line 205 runs only on the present-and-still-running branch). -/
def pollReportsGo (backend : Nat → PollResponse) : Nat → Nat → List ℚ
  | _, 0 => []
  | attempts, gas + 1 =>
    match backend attempts with
    | .httpError _ =>
      if attempts + 1 ≥ maxAttempts then [] else pollReportsGo backend (attempts + 1) gas
    | .errorStatus _ =>
      if attempts + 1 ≥ maxAttempts then [] else pollReportsGo backend (attempts + 1) gas
    | .completed _ => []
    | .notPresent => pollReportsGo backend (attempts + 1) gas
    | .running => pollProgress attempts :: pollReportsGo backend (attempts + 1) gas

/-- Does the poll loop return normally? -/
def pollSucceeds (r : PollResult) : Bool :=
  match r with
  | .success _ => true
  | .failure _ => false

/-- All progress values one job attempt reports, in order
(lines 29, 42, 46, 75 before polling; lines 79, 83 after, reached only
when the poll returned): 10, 20, 30, 50, the polling reports, then
90 and 100 on success. -/
def workerProgressTrace (backend : Nat → PollResponse) : List ℚ :=
  [10, 20, 30, 50] ++ pollReportsGo backend 0 maxAttempts ++
    (if pollSucceeds (waitForComfyUICompletion backend) then [90, 100] else [])

/-! Section: Result extractor (`processComfyUIOutputs`, lines 228-267) -/

/-- The job-data fields the extractor reads. -/
structure ImageGenerationJobData where
  workflow_name : String
  user_id : Option String
  deriving Repr, DecidableEq

/-- An extracted artifact (interface `GeneratedImage`, lines 14-19). -/
structure GeneratedImage where
  filename : String
  subfolder : String
  type : String
  node_id : String
  deriving Repr, DecidableEq

/-- The record built at lines 229-236/249-254. -/
structure ProcessedResults where
  images : List GeneratedImage
  metadataWorkflow : String
  metadataUserId : Option String
  deriving Repr, DecidableEq

/-- The `for (const nodeId in outputs)` loop of lines 244-257: groups
whose `images` field is absent or not an array contribute nothing. -/
def collectImages : Outputs → List GeneratedImage
  | [] => []
  | (nodeId, nodeOutputs) :: rest =>
    (match nodeOutputs.images with
     | some ims => ims.map fun image =>
         { filename := image.filename, subfolder := image.subfolder,
           type := image.type, node_id := nodeId }
     | none => []) ++ collectImages rest

/-- Extractor `processComfyUIOutputs`: a null/absent `outputs` throws (line 240),
re-wrapped by the catch of lines 261-264; otherwise the flattened
artifact list is returned. -/
def processComfyUIOutputs (outputs : Option Outputs)
    (jobData : ImageGenerationJobData) : Except String ProcessedResults :=
  match outputs with
  | none =>
    .error "Falha ao processar resultados: Nenhum output recebido do ComfyUI"
  | some groups =>
    .ok { images := collectImages groups
          metadataWorkflow := jobData.workflow_name
          metadataUserId := jobData.user_id }

/-! Section: Concrete example values used by counterexamples and witnesses -/

/-- A concrete outputs object with one image under node `9`. -/
def cOuts : Outputs :=
  [("9", { images := some [{ filename := "img_00001.png", subfolder := "",
                             type := "output" }] })]

/-- A backend that reports an explicit error status on the first query
and completed on the second. -/
def cErrBackend : Nat → PollResponse := fun i =>
  if i = 0 then .errorStatus (some [["execution_error", "node failed"]])
  else .completed (some cOuts)

/-- A backend still running for the first 119 queries, completed on the
120th. -/
def cBackend119 : Nat → PollResponse := fun i =>
  if i = 119 then .completed (some cOuts) else .running

/-- A backend that never completes. -/
def cRunBackend : Nat → PollResponse := fun _ => .running

/-- A backend completed on the very first query. -/
def cDoneBackend : Nat → PollResponse := fun _ => .completed (some cOuts)

/-- Concrete job data for the extractor. -/
def cJobData : ImageGenerationJobData :=
  { workflow_name := "fashion-sketch", user_id := some "user-1" }

/-- Two output groups: node `9` with two images, node `12` with none. -/
def cTwoGroups : Outputs :=
  [("9", { images := some [
              { filename := "a.png", subfolder := "", type := "output" },
              { filename := "b.png", subfolder := "sub", type := "output" }] }),
   ("12", { images := none })]

/-- A workflow with a single `KSampler` node `3` whose seed is 42. -/
def cWfSampler : Workflow :=
  { prompt := some [("3", { class_type := "KSampler",
                            inputs := [("seed", .num 42)] })] }

/-- Inputs with every parameter absent. -/
def cEmptyInputs : Inputs :=
  { prompt_text := none, prompt := none, negative_prompt := none,
    pattern_type := none, colors := none, model_type := none,
    garment_description := none, seed := none }

/-- Inputs whose only parameter is the numeric seed 0 (falsy in JS). -/
def cZeroSeedInputs : Inputs := { cEmptyInputs with seed := some 0 }

/-- Inputs whose only parameter is the numeric seed 7. -/
def cSeedInputs7 : Inputs := { cEmptyInputs with seed := some 7 }

/-- A failed job that is already a first resubmission: its lineage block
points at the original job `jobA`. -/
def cResubJob : FailedJob :=
  { id := "requeue-jobA-100", timestamp := 0, failedReason := some "boom",
    data := { workflow_name := "fashion-sketch",
              requeue_info := some
                { original_job_id := "jobA", requeue_count := 1,
                  requeue_timestamp := "t0",
                  original_failure_reason := some "r0" } } }

/-- A fresh failed job (no lineage yet). -/
def cJobA : FailedJob :=
  { id := "jobA", timestamp := 0, failedReason := some "boom",
    data := { workflow_name := "fashion-sketch", requeue_info := none } }

/-- A second-generation failed job: the resubmission of `cJobA` failed
again. -/
def cJobB : FailedJob :=
  { id := "requeue-jobA-100", timestamp := 50, failedReason := some "boom2",
    data := makeRequeueData cJobA "t1" }

/-- The spec's example: a job aged 25 hours whose failure reason matches
a temporary pattern. -/
def cOldJob : FailedJob :=
  { id := "job-old", timestamp := 0,
    failedReason := some "ETIMEDOUT while connecting",
    data := { workflow_name := "fashion-sketch", requeue_info := none } }

/-- A store with a single workflow object at reference 0. -/
def cStore0 : Store :=
  { mem := fun _ => cWfSampler, next := 1 }

/-! Section: Theorems -/

/-- C1: for every failed job, the requeue decision follows the claimed
first-match-wins order — age bound, then retry budget, then
case-insensitive temporary match, then case-insensitive permanent
match, then accept exactly when the prior resubmission count is 0.  In
particular a job older than `max_age` is rejected no matter what its
reason text matches. -/
theorem C1_requeue_decision_order (now : Int) (job : FailedJob)
    (options : RequeueOptions) :
    (shouldRequeueJob now job options).requeue = claimC1Decision now job options ∧
    (now - job.timestamp > options.maxAge →
      (shouldRequeueJob now job options).requeue = false) := by
  constructor
  · by_cases h1 : now - job.timestamp > options.maxAge
    · simp [shouldRequeueJob, claimC1Decision, h1]
    · by_cases h2 : priorRequeueCount job ≥ options.maxRetries
      · simp [shouldRequeueJob, claimC1Decision, h1, h2]
      · by_cases h3 : temporaryErrors.any
            (fun e => lcIncludes (job.failedReason.getD "") e) = true
        · simp [shouldRequeueJob, claimC1Decision, h1, h2, h3]
        · by_cases h4 : permanentErrors.any
              (fun e => lcIncludes (job.failedReason.getD "") e) = true
          · simp [shouldRequeueJob, claimC1Decision, h1, h2, h3, h4]
          · by_cases h5 : priorRequeueCount job = 0
            · have h6 : options.maxRetries ≠ 0 := by rw [h5] at h2; omega
              simp [shouldRequeueJob, claimC1Decision, h1, h2, h3, h4, h5, h6]
            · simp [shouldRequeueJob, claimC1Decision, h1, h2, h3, h4, h5]
  · intro h
    unfold shouldRequeueJob
    simp [h]

/-- C1 witness: the spec's example — a job aged 25h (timestamps in ms)
whose reason text `ETIMEDOUT while connecting` matches a temporary
pattern is still rejected by the age check. -/
theorem C1_requeue_decision_order_witness :
    (25 * 60 * 60 * 1000 : Int) - cOldJob.timestamp > defaultOptions.maxAge ∧
    (shouldRequeueJob (25 * 60 * 60 * 1000) cOldJob defaultOptions).requeue = false :=
  ⟨by decide,
   (C1_requeue_decision_order (25 * 60 * 60 * 1000) cOldJob defaultOptions).2
     (by decide)⟩

/-- Helper: the sweep loop counts each examined job exactly once. -/
theorem sweepGo_counts (now : Int) (options : RequeueOptions) :
    ∀ (jobs : List (FailedJob × JobFaults)) (r s : Nat),
      (sweepGo now options jobs r s).1 + (sweepGo now options jobs r s).2 =
        r + s + jobs.length := by
  intro jobs
  induction jobs with
  | nil => intro r s; simp [sweepGo]
  | cons jf rest ih =>
    intro r s
    obtain ⟨job, f⟩ := jf
    simp only [sweepGo]
    split_ifs <;> rw [ih] <;> simp <;> omega

/-- C10: every Requeue Classifier sweep counts each failed job exactly
once as requeued or skipped (per-job evaluation and resubmission faults
count as skipped), so requeued + skipped equals the number of failed
jobs examined. -/
theorem C10_sweep_partition (now : Int) (options : RequeueOptions)
    (failedJobs : List (FailedJob × JobFaults)) :
    (requeueFailedJobs now options failedJobs).requeued +
        (requeueFailedJobs now options failedJobs).skipped =
      (requeueFailedJobs now options failedJobs).total ∧
    (requeueFailedJobs now options failedJobs).total = failedJobs.length := by
  unfold requeueFailedJobs
  refine ⟨?_, rfl⟩
  simpa using sweepGo_counts now options failedJobs 0 0

/-- C3 counterexample: resubmitting a job that is itself a first
resubmission (its lineage block points at the original `jobA`) produces
a lineage block whose origin identifier is the intermediate job's id,
not `jobA` — the origin is reset per hop, refuting preservation. -/
theorem C3_counterexample :
    cResubJob.data.requeue_info.map RequeueInfo.original_job_id = some "jobA" ∧
    (makeRequeueData cResubJob "t1").requeue_info.map
        RequeueInfo.original_job_id ≠ some "jobA" := by
  decide

/-- C3 (amended): each resubmission increments the resubmission count by
exactly 1 (0 when absent), and the new lineage block's origin identifier
is the id of the job being resubmitted — the immediate predecessor —
so over a two-hop chain the count accumulates but the origin does not
point back to the original job. -/
theorem C3_amended_lineage (job1 job2 : FailedJob) (ts1 ts2 : String)
    (h : job2.data = makeRequeueData job1 ts1) :
    (makeRequeueData job1 ts1).requeue_info.map RequeueInfo.requeue_count =
        some (priorRequeueCount job1 + 1) ∧
    (makeRequeueData job1 ts1).requeue_info.map RequeueInfo.original_job_id =
        some job1.id ∧
    (makeRequeueData job2 ts2).requeue_info.map RequeueInfo.requeue_count =
        some (priorRequeueCount job1 + 2) ∧
    (makeRequeueData job2 ts2).requeue_info.map RequeueInfo.original_job_id =
        some job2.id := by
  refine ⟨rfl, rfl, ?_, rfl⟩
  simp [makeRequeueData, priorRequeueCount, h]

/-- C3 witness: the two-hop chain `cJobA → cJobB` — counts go 1 then 2,
and the second hop's origin is `cJobB`'s id, i.e. the intermediate
requeued job. -/
theorem C3_amended_lineage_witness :
    (makeRequeueData cJobA "t1").requeue_info.map RequeueInfo.requeue_count =
        some (priorRequeueCount cJobA + 1) ∧
    (makeRequeueData cJobA "t1").requeue_info.map RequeueInfo.original_job_id =
        some cJobA.id ∧
    (makeRequeueData cJobB "t2").requeue_info.map RequeueInfo.requeue_count =
        some (priorRequeueCount cJobA + 2) ∧
    (makeRequeueData cJobB "t2").requeue_info.map RequeueInfo.original_job_id =
        some cJobB.id :=
  C3_amended_lineage cJobA cJobB "t1" "t2" rfl

/-- Helper: the poll loop's outcome depends only on the responses to the
queries it can make. -/
theorem pollGo_congr (b1 b2 : Nat → PollResponse) :
    ∀ (gas attempts : Nat),
      (∀ i, attempts ≤ i → i < attempts + gas → b1 i = b2 i) →
      pollGo b1 attempts gas = pollGo b2 attempts gas := by
  intro gas
  induction gas with
  | zero => intro attempts _; rfl
  | succ g ih =>
    intro attempts h
    have hb : b1 attempts = b2 attempts := h attempts le_rfl (by omega)
    have hrec : pollGo b1 (attempts + 1) g = pollGo b2 (attempts + 1) g :=
      ih (attempts + 1) (fun i h1 h2 => h i (by omega) (by omega))
    simp only [pollGo, hb]
    cases b2 attempts with
    | httpError s => by_cases hc : attempts + 1 ≥ maxAttempts <;> simp [hc, hrec]
    | errorStatus m => by_cases hc : attempts + 1 ≥ maxAttempts <;> simp [hc, hrec]
    | completed o => rfl
    | notPresent => exact hrec
    | running => exact hrec

/-- Helper: a backend that stays running (or absent) for every reachable
query makes the loop exhaust its attempts and throw the timeout error. -/
theorem pollGo_timeout (backend : Nat → PollResponse) :
    ∀ (gas attempts : Nat),
      (∀ i, attempts ≤ i → i < attempts + gas →
        backend i = .running ∨ backend i = .notPresent) →
      pollGo backend attempts gas = .failure timeoutMsg := by
  intro gas
  induction gas with
  | zero => intro attempts _; rfl
  | succ g ih =>
    intro attempts h
    have hrec : pollGo backend (attempts + 1) g = .failure timeoutMsg :=
      ih (attempts + 1) (fun i h1 h2 => h i (by omega) (by omega))
    rcases h attempts le_rfl (by omega) with hb | hb <;>
      simp only [pollGo, hb] <;> exact hrec

/-- Helper: a backend that completes at query `k`, having been running
(or absent) before, makes the loop return that query's outputs. -/
theorem pollGo_completes (backend : Nat → PollResponse) (outs : Option Outputs) :
    ∀ (gas attempts k : Nat), attempts ≤ k → k < attempts + gas →
      backend k = .completed outs →
      (∀ i, attempts ≤ i → i < k →
        backend i = .running ∨ backend i = .notPresent) →
      pollGo backend attempts gas = .success outs := by
  intro gas
  induction gas with
  | zero => intro attempts k h1 h2 _ _; omega
  | succ g ih =>
    intro attempts k h1 h2 hk h
    rcases eq_or_lt_of_le h1 with he | hlt
    · subst he
      simp only [pollGo, hk]
    · have hrec : pollGo backend (attempts + 1) g = .success outs :=
        ih (attempts + 1) k (by omega) (by omega) hk
          (fun i hi1 hi2 => h i (by omega) hi2)
      rcases h attempts le_rfl hlt with hb | hb <;>
        simp only [pollGo, hb] <;> exact hrec

/-- Helper: a backend that reports an explicit error status on every
query makes the loop retry until its attempts are exhausted and only
then rethrow the extracted error. -/
theorem pollGo_persistent_error (backend : Nat → PollResponse)
    (messages : Option (List (List String)))
    (h : ∀ i, backend i = .errorStatus messages) :
    ∀ (gas attempts : Nat), attempts + gas = maxAttempts → 1 ≤ gas →
      pollGo backend attempts gas = .failure (comfyErrorMsg messages) := by
  intro gas
  induction gas with
  | zero => intro attempts _ h2; omega
  | succ g ih =>
    intro attempts hsum _
    simp only [pollGo, h attempts]
    by_cases hc : attempts + 1 ≥ maxAttempts
    · simp [hc]
    · have hg : 1 ≤ g := by omega
      simp only [hc, if_false]
      exact ih (attempts + 1) (by omega) hg

/-- C2 counterexample: a backend reporting an explicit error status on
the first query and completed on the second.  The claim says the poller
fails immediately with no further polling; instead the thrown error is
caught by the transient-retry handler, the loop polls again, and the job
even completes successfully. -/
theorem C2_counterexample :
    cErrBackend 0 =
      PollResponse.errorStatus (some [["execution_error", "node failed"]]) ∧
    waitForComfyUICompletion cErrBackend = PollResult.success (some cOuts) := by
  exact ⟨rfl, rfl⟩

/-- C2 (amended): on an explicit error status the poller raises an error
carrying the message extracted from the first status message (else a
generic message), but that error lands in the same catch as transient
query failures, so polling continues; the job fails with the extracted
message only once the error persists through all 120 attempts. -/
theorem C2_amended_error_status (backend : Nat → PollResponse)
    (messages : Option (List (List String)))
    (h : ∀ i, backend i = .errorStatus messages) :
    waitForComfyUICompletion backend = .failure (comfyErrorMsg messages) :=
  pollGo_persistent_error backend messages h maxAttempts 0 (by omega)
    (by norm_num [maxAttempts])

/-- C2 witness: a backend that always reports an error status with no
messages fails with the generic extracted message. -/
theorem C2_amended_error_status_witness :
    waitForComfyUICompletion (fun _ => PollResponse.errorStatus none) =
      PollResult.failure (comfyErrorMsg none) :=
  C2_amended_error_status (fun _ => .errorStatus none) none (fun _ => rfl)

/-- C4: the completion poller makes at most 120 status queries (its
outcome depends only on the first 120 responses), returns the outputs
when the backend completes on or before the 120th query, and fails with
the timeout error when the backend never completes nor errors within
120 queries. -/
theorem C4_poller_bounded (backend other : Nat → PollResponse)
    (outs : Option Outputs) (k : Nat) :
    ((∀ i, i < maxAttempts → backend i = other i) →
        waitForComfyUICompletion backend = waitForComfyUICompletion other) ∧
    ((∀ i, i < maxAttempts →
        backend i = .running ∨ backend i = .notPresent) →
        waitForComfyUICompletion backend = .failure timeoutMsg) ∧
    (k < maxAttempts → backend k = .completed outs →
      (∀ i, i < k → backend i = .running) →
        waitForComfyUICompletion backend = .success outs) := by
  refine ⟨?_, ?_, ?_⟩
  · intro h
    exact pollGo_congr backend other maxAttempts 0 (fun i h1 h2 => h i (by omega))
  · intro h
    exact pollGo_timeout backend maxAttempts 0 (fun i h1 h2 => h i (by omega))
  · intro hk hc h
    exact pollGo_completes backend outs maxAttempts 0 k (by omega) (by omega) hc
      (fun i h1 h2 => Or.inl (h i h2))

/-- C4 witness: the spec's two scenarios — still running for 119 queries
then completed on the 120th yields the outputs; never completing yields
the timeout failure. -/
theorem C4_poller_bounded_witness :
    waitForComfyUICompletion cBackend119 = PollResult.success (some cOuts) ∧
    waitForComfyUICompletion cRunBackend = PollResult.failure timeoutMsg := by
  constructor
  · exact (C4_poller_bounded cBackend119 cBackend119 (some cOuts) 119).2.2
      (by decide) rfl (by decide)
  · exact (C4_poller_bounded cRunBackend cRunBackend none 0).2.1
      (fun i _ => Or.inl rfl)

/-- Helper: pointwise overwrite of an existing key in an association
list makes a read of that key return the new value. -/
theorem getVal_mapset (k : String) (v : WValue) :
    ∀ kvs : List (String × WValue), kvs.any (fun p => p.1 = k) = true →
      getVal (kvs.map (fun p => if p.1 = k then (p.1, v) else p)) k = some v := by
  intro kvs
  induction kvs with
  | nil => intro h; simp at h
  | cons p rest ih =>
    intro h
    by_cases hp : p.1 = k
    · simp [getVal, hp]
    · have h2 : rest.any (fun q => q.1 = k) = true := by
        simp [List.any_cons, hp] at h
        simpa using h
      simpa [getVal, hp] using ih h2

/-- Helper: seed injection with a truthy seed overwrites the `seed`
input of every `KSampler` node that has one. -/
theorem injectSeed_sets (wf : Workflow) (s : Int) (hs : s ≠ 0)
    (k : String) (node : WNode)
    (hmem : (k, node) ∈ (injectSeed wf (some s)).prompt.getD [])
    (hks : node.class_type = "KSampler")
    (hseed : node.inputs.any (fun q => q.1 = "seed") = true) :
    getVal node.inputs "seed" = some (.num s) := by
  cases hwf : wf.prompt with
  | none => simp [injectSeed, hs, hwf] at hmem
  | some nodes =>
    simp only [injectSeed, hwf] at hmem
    rw [if_pos hs] at hmem
    simp only [Option.getD_some] at hmem
    rw [List.mem_map] at hmem
    obtain ⟨p, hp, heq⟩ := hmem
    by_cases hcond :
        (p.2.class_type = "KSampler" && p.2.inputs.any fun q => q.1 = "seed") = true
    · rw [if_pos hcond] at heq
      have hnode : node = { p.2 with inputs := setVal p.2.inputs "seed" (.num s) } :=
        (congrArg Prod.snd heq).symm
      rw [Bool.and_eq_true] at hcond
      have hany : p.2.inputs.any (fun q => q.1 = "seed") = true := hcond.2
      rw [hnode]
      simp only [setVal, hany, if_true]
      exact getVal_mapset "seed" (.num s) p.2.inputs hany
    · rw [if_neg hcond] at heq
      have hnode : node = p.2 := (congrArg Prod.snd heq).symm
      rw [Bool.and_eq_true] at hcond
      push_neg at hcond
      exfalso
      apply hcond
      · rw [← hnode]; simpa using hks
      · rw [← hnode]; exact hseed

/-- C5 counterexample: a request carrying the numeric seed 0 for a
template holding one `KSampler` node leaves that node's seed at 42 —
seed 0 is falsy in JS, so the injection step is skipped entirely,
refuting the claim for every numeric seed. -/
theorem C5_counterexample :
    cZeroSeedInputs.seed = some 0 ∧
    (injectWorkflowParameters cWfSampler "fashion-sketch" cZeroSeedInputs).1.prompt =
      some [("3", { class_type := "KSampler",
                    inputs := [("seed", WValue.num 42)] })] :=
  ⟨rfl, rfl⟩

/-- C5 (amended): for every request carrying a nonzero numeric seed,
parameter injection overwrites the seed of every sampler node
(`class_type = KSampler`) of the resulting workflow that has a `seed`
input; a zero seed is falsy and disables the broadcast, and sampler
nodes without an existing `seed` input are left untouched. -/
theorem C5_amended_seed (workflow : Workflow) (workflowName : String)
    (inputs : Inputs) (s : Int) (h1 : inputs.seed = some s) (hs : s ≠ 0)
    (k : String) (node : WNode)
    (hmem : (k, node) ∈
      ((injectWorkflowParameters workflow workflowName inputs).1.prompt.getD []))
    (hks : node.class_type = "KSampler")
    (hseed : node.inputs.any (fun q => q.1 = "seed") = true) :
    getVal node.inputs "seed" = some (.num s) := by
  simp only [injectWorkflowParameters, h1] at hmem
  exact injectSeed_sets _ s hs k node hmem hks hseed

/-- C5 witness: seed 7 lands in the sampler node's `seed` input. -/
theorem C5_amended_seed_witness :
    getVal [("seed", WValue.num 7)] "seed" = some (WValue.num 7) :=
  C5_amended_seed cWfSampler "fashion-sketch" cSeedInputs7 7 rfl (by decide) "3"
    { class_type := "KSampler", inputs := [("seed", WValue.num 7)] }
    (by decide) rfl (by decide)

/-- Helper: the extractor's collection loop equals a flat map over the
groups, each contributing its (possibly absent, hence empty) image list
tagged with the producing node id. -/
theorem collectImages_flatMap : ∀ groups : Outputs,
    collectImages groups = groups.flatMap
      (fun g => (g.2.images.getD []).map fun image =>
        { filename := image.filename, subfolder := image.subfolder,
          type := image.type, node_id := g.1 }) := by
  intro groups
  induction groups with
  | nil => rfl
  | cons g rest ih =>
    obtain ⟨nid, no⟩ := g
    cases hno : no.images <;> simp [collectImages, hno, ih]

/-- C7: the result extractor fails with the empty-output error exactly
when `outputs` is absent; on any non-null outputs object it returns the
flat map of every node group's image entries, each artifact tagged with
its producing node id, with image-less groups contributing nothing. -/
theorem C7_extractor (jobData : ImageGenerationJobData)
    (outputs : Option Outputs) :
    (processComfyUIOutputs none jobData =
      .error "Falha ao processar resultados: Nenhum output recebido do ComfyUI") ∧
    (∀ groups : Outputs,
      processComfyUIOutputs (some groups) jobData =
        .ok { images := collectImages groups,
              metadataWorkflow := jobData.workflow_name,
              metadataUserId := jobData.user_id }) ∧
    (∀ e, processComfyUIOutputs outputs jobData = .error e → outputs = none) ∧
    (∀ groups : Outputs,
      collectImages groups = groups.flatMap
        (fun g => (g.2.images.getD []).map fun image =>
          { filename := image.filename, subfolder := image.subfolder,
            type := image.type, node_id := g.1 })) := by
  refine ⟨rfl, fun _ => rfl, ?_, collectImages_flatMap⟩
  intro e h
  cases outputs with
  | none => rfl
  | some groups => simp [processComfyUIOutputs] at h

/-- C7 witness: two node groups, one with two images and one with none,
yield exactly the two artifacts tagged with node `9`; a null outputs
value yields the empty-output error. -/
theorem C7_extractor_witness :
    processComfyUIOutputs (some cTwoGroups) cJobData =
      .ok { images := [
              { filename := "a.png", subfolder := "", type := "output",
                node_id := "9" },
              { filename := "b.png", subfolder := "sub", type := "output",
                node_id := "9" }],
            metadataWorkflow := "fashion-sketch",
            metadataUserId := some "user-1" } ∧
    processComfyUIOutputs none cJobData =
      .error "Falha ao processar resultados: Nenhum output recebido do ComfyUI" := by
  constructor
  · rw [(C7_extractor cJobData none).2.1 cTwoGroups]; rfl
  · exact (C7_extractor cJobData none).1

/-- C8: parameter injection operates on a fresh deep copy, so the
template object the caller passed in is unchanged in the store —
re-reading the original reference after injection yields the original
workflow. -/
theorem C8_injector_no_mutation (σ : Store) (r : Nat)
    (workflowName : String) (inputs : Inputs) (h : r < σ.next) :
    ((injectOnStore σ r workflowName inputs).1).mem r = σ.mem r := by
  have hne : r ≠ σ.next := Nat.ne_of_lt h
  simp [injectOnStore, allocStore, writeStore, hne]

/-- C8 witness: injecting from the one-object store leaves the stored
template at reference 0 intact. -/
theorem C8_injector_no_mutation_witness :
    ((injectOnStore cStore0 0 "fashion-sketch" cEmptyInputs).1).mem 0 =
      cStore0.mem 0 :=
  C8_injector_no_mutation cStore0 0 "fashion-sketch" cEmptyInputs (by decide)

/-- C9: an unknown template name never fails: the injector emits the
warning signal, the generic path depends only on the free-text
`prompt_text` parameter (plus the seed broadcast), and with no
parameters at all the workflow passes through unchanged. -/
theorem C9_unknown_template (workflow : Workflow) (workflowName : String)
    (inputs other : Inputs) (h : workflowName ∉ knownWorkflowNames) :
    (injectWorkflowParameters workflow workflowName inputs).2 = true ∧
    (inputs.prompt_text = other.prompt_text → inputs.seed = other.seed →
      (injectWorkflowParameters workflow workflowName inputs).1 =
        (injectWorkflowParameters workflow workflowName other).1) ∧
    (inputs.prompt_text = none → inputs.seed = none →
      (injectWorkflowParameters workflow workflowName inputs).1 = workflow) := by
  simp only [knownWorkflowNames, List.mem_cons, List.not_mem_nil] at h
  push_neg at h
  obtain ⟨h1, h2, h3⟩ := h
  refine ⟨?_, ?_, ?_⟩
  · simp [injectWorkflowParameters, h1, h2, h3]
  · intro hp hs
    simp [injectWorkflowParameters, h1, h2, h3, hp, hs]
  · intro hp hs
    simp [injectWorkflowParameters, h1, h2, h3, hp, hs, injectSeed]

/-- C9 witness: an unknown name with no parameters warns and returns the
workflow unchanged. -/
theorem C9_unknown_template_witness :
    (injectWorkflowParameters cWfSampler "unknown-workflow" cEmptyInputs).2 =
      true ∧
    (injectWorkflowParameters cWfSampler "unknown-workflow" cEmptyInputs).1 =
      cWfSampler := by
  have h := C9_unknown_template cWfSampler "unknown-workflow" cEmptyInputs
    cEmptyInputs (by decide)
  exact ⟨h.1, h.2.2 rfl rfl⟩

/-- Helper: the interpolated progress is at least 50. -/
theorem pollProgress_ge (a : Nat) : (50 : ℚ) ≤ pollProgress a := by
  unfold pollProgress
  apply le_min
  · have h : (0 : ℚ) ≤ (a : ℚ) / (maxAttempts : ℚ) * 40 := by positivity
    linarith
  · norm_num

/-- Helper: the interpolated progress is clamped to at most 89. -/
theorem pollProgress_le (a : Nat) : pollProgress a ≤ 89 :=
  min_le_right _ _

/-- Helper: the interpolated progress is monotone in the attempt index. -/
theorem pollProgress_mono {a b : Nat} (h : a ≤ b) :
    pollProgress a ≤ pollProgress b := by
  unfold pollProgress
  apply min_le_min _ le_rfl
  have h120 : (0 : ℚ) < (maxAttempts : ℚ) := by norm_num [maxAttempts]
  have hab : (a : ℚ) ≤ (b : ℚ) := by exact_mod_cast h
  have hdiv : (a : ℚ) / (maxAttempts : ℚ) ≤ (b : ℚ) / (maxAttempts : ℚ) :=
    (div_le_div_iff_of_pos_right h120).mpr hab
  nlinarith

/-- Helper: every reported polling value is the interpolated progress of
some attempt index in range. -/
theorem pollReportsGo_mem (backend : Nat → PollResponse) :
    ∀ (gas attempts : Nat) (p : ℚ), p ∈ pollReportsGo backend attempts gas →
      ∃ i, attempts ≤ i ∧ i < attempts + gas ∧ p = pollProgress i := by
  intro gas
  induction gas with
  | zero => intro attempts p h; simp [pollReportsGo] at h
  | succ g ih =>
    intro attempts p h
    cases hb : backend attempts with
    | httpError s =>
      rw [pollReportsGo, hb] at h
      by_cases hc : attempts + 1 ≥ maxAttempts
      · rw [if_pos hc] at h; simp at h
      · rw [if_neg hc] at h
        obtain ⟨i, h1, h2, h3⟩ := ih (attempts + 1) p h
        exact ⟨i, by omega, by omega, h3⟩
    | errorStatus m =>
      rw [pollReportsGo, hb] at h
      by_cases hc : attempts + 1 ≥ maxAttempts
      · rw [if_pos hc] at h; simp at h
      · rw [if_neg hc] at h
        obtain ⟨i, h1, h2, h3⟩ := ih (attempts + 1) p h
        exact ⟨i, by omega, by omega, h3⟩
    | completed o => rw [pollReportsGo, hb] at h; simp at h
    | notPresent =>
      rw [pollReportsGo, hb] at h
      obtain ⟨i, h1, h2, h3⟩ := ih (attempts + 1) p h
      exact ⟨i, by omega, by omega, h3⟩
    | running =>
      rw [pollReportsGo, hb] at h
      rcases List.mem_cons.mp h with he | ht
      · exact ⟨attempts, le_rfl, by omega, he⟩
      · obtain ⟨i, h1, h2, h3⟩ := ih (attempts + 1) p ht
        exact ⟨i, by omega, by omega, h3⟩

/-- Helper: the polling reports are emitted in non-decreasing order. -/
theorem pollReportsGo_pairwise (backend : Nat → PollResponse) :
    ∀ (gas attempts : Nat),
      List.Pairwise (· ≤ ·) (pollReportsGo backend attempts gas) := by
  intro gas
  induction gas with
  | zero => intro attempts; simp [pollReportsGo]
  | succ g ih =>
    intro attempts
    cases hb : backend attempts with
    | httpError s =>
      rw [pollReportsGo, hb]
      by_cases hc : attempts + 1 ≥ maxAttempts
      · rw [if_pos hc]; exact List.Pairwise.nil
      · rw [if_neg hc]; exact ih (attempts + 1)
    | errorStatus m =>
      rw [pollReportsGo, hb]
      by_cases hc : attempts + 1 ≥ maxAttempts
      · rw [if_pos hc]; exact List.Pairwise.nil
      · rw [if_neg hc]; exact ih (attempts + 1)
    | completed o => rw [pollReportsGo, hb]; exact List.Pairwise.nil
    | notPresent => rw [pollReportsGo, hb]; exact ih (attempts + 1)
    | running =>
      rw [pollReportsGo, hb]
      refine List.Pairwise.cons ?_ (ih (attempts + 1))
      intro q hq
      obtain ⟨i, h1, _, h3⟩ := pollReportsGo_mem backend g (attempts + 1) q hq
      rw [h3]
      exact pollProgress_mono (by omega)

/-- C6: within one job attempt the reported progress sequence is
non-decreasing and, when the poll succeeds, ends at 100; every value
reported while polling is the interpolated `50 + (attempt/maxAttempts)*40`
clamped to 89, hence lies in `[50, 90)`. -/
theorem C6_progress_monotone (backend : Nat → PollResponse) :
    List.Pairwise (· ≤ ·) (workerProgressTrace backend) ∧
    (pollSucceeds (waitForComfyUICompletion backend) = true →
      (workerProgressTrace backend).getLast? = some 100) ∧
    (∀ p ∈ pollReportsGo backend 0 maxAttempts,
      (∃ a, a < maxAttempts ∧ p = pollProgress a) ∧ 50 ≤ p ∧ p < 90) := by
  have hmem : ∀ p ∈ pollReportsGo backend 0 maxAttempts,
      (∃ a, a < maxAttempts ∧ p = pollProgress a) ∧ 50 ≤ p ∧ p < 90 := by
    intro p hp
    obtain ⟨i, _, h2, h3⟩ := pollReportsGo_mem backend maxAttempts 0 p hp
    refine ⟨⟨i, by omega, h3⟩, ?_, ?_⟩
    · rw [h3]; exact pollProgress_ge i
    · rw [h3]
      have := pollProgress_le i
      linarith
  refine ⟨?_, ?_, hmem⟩
  · unfold workerProgressTrace
    rw [List.pairwise_append]
    refine ⟨?_, ?_, ?_⟩
    · rw [List.pairwise_append]
      refine ⟨by norm_num [List.pairwise_cons],
        pollReportsGo_pairwise backend maxAttempts 0, ?_⟩
      intro x hx y hy
      have hx50 : x ≤ 50 := by
        rcases (by simpa using hx :
          x = (10 : ℚ) ∨ x = 20 ∨ x = 30 ∨ x = 50) with h | h | h | h <;>
          rw [h] <;> norm_num
      have := (hmem y hy).2.1
      linarith
    · split
      · norm_num [List.pairwise_cons]
      · exact List.Pairwise.nil
    · intro x hx y hy
      have hy90 : (90 : ℚ) ≤ y := by
        split at hy
        · rcases (by simpa using hy : y = (90 : ℚ) ∨ y = 100) with h | h <;>
            norm_num [h]
        · simp at hy
      have hx89 : x ≤ 89 := by
        rcases List.mem_append.mp hx with h1 | h2
        · rcases (by simpa using h1 :
            x = (10 : ℚ) ∨ x = 20 ∨ x = 30 ∨ x = 50) with h | h | h | h <;>
            rw [h] <;> norm_num
        · obtain ⟨⟨i, _, h3⟩, _, _⟩ := hmem x h2
          rw [h3]; exact pollProgress_le i
      linarith
  · intro h
    unfold workerProgressTrace
    rw [if_pos h]
    rw [List.getLast?_append_of_ne_nil _ (by simp)]
    rfl

/-- C6 witness: a backend that completes on the first query yields the
trace 10, 20, 30, 50, 90, 100 whose last report is 100. -/
theorem C6_progress_monotone_witness :
    (workerProgressTrace cDoneBackend).getLast? = some 100 :=
  (C6_progress_monotone cDoneBackend).2.1 rfl

end VF
